import Mathlib

/-!
Verification of the asynchronous execution core of a GPU runtime excerpt.

The development shallowly embeds:
* the typed dispatch overloads of `EnqueueWork`, `EnqueueBlockingWork` and
  `RunBlockingWork` (include/tfrt/host_context/async_dispatch.h),
* the blocking wait bridge `Await` (declared in the same header),
* the sync-to-async adapter `WithChainResult` (backends/gpu/lib/kernels/kernels.h),
* the kernels `CudaEventSynchronizeAsync`, `CheckMemcpySizes`,
  `CudaMemcpyHtoD`, `CudaMemcpyDtoH` and `CudaTensorMake`
  (backends/gpu/lib/kernels/kernels.cc).

Effects of C++ functions are embedded as explicit state passing; results of
driver calls that are outside the excerpt (EventQuery, CtxSetCurrent,
MemcpyAsync, ...) enter the embedded functions as parameters.  Errors are
carried as their message strings, or as structured values where the message
is built from data.
-/

namespace Tfrt

/-- Resolution state of an `AsyncValue` cell: a single-assignment future is
unresolved, or holds a concrete value, or holds an error. -/
inductive AVState (α : Type) where
  | unresolved : AVState α
  | value : α → AVState α
  | error : String → AVState α
deriving DecidableEq, Repr

/-- Whether a cell has left the `unresolved` state (with a value or an error). -/
def isResolved {α : Type} : AVState α → Bool
  | .unresolved => false
  | .value _ => true
  | .error _ => true

/-- Sequencing token `tfrt::Chain`: a struct with no members.  The expression
`Chain{}` in the source is the default-constructed token `Chain.mk`. -/
inductive Chain where
  | mk : Chain
deriving DecidableEq, Repr

/-- Return value of a closure handed to a typed dispatch overload.
`internal::UnwrapExpected` (async_dispatch.h:29-39) strips one `Expected`
wrapper from the closure's return type to obtain the cell's payload type `R`:
the closure either returns `R` directly or an `Expected<R>`, embedded as
`Except String R`. -/
inductive WorkResult (R : Type) where
  | plain : R → WorkResult R
  | fallible : Except String R → WorkResult R

/-- Modelled from the spec: the effect of `result.emplace(work())`
(async_dispatch.h:67, 98, 131) on the unconstructed cell.
`AsyncValueRef::emplace` is outside the excerpt; the spec states that the
produced future is "resolving it with the closure's return value once it
executes; if the closure's natural return type is itself 'fallible-value'
shaped, the produced future is resolved with error instead of value on
failure, never both" (spec section 4.2, typed overloads). -/
def emplaceWork {R : Type} : WorkResult R → AVState R
  | .plain r => .value r
  | .fallible (.ok r) => .value r
  | .fallible (.error e) => .error e

/-- Observable outcome of one typed submission: the state of the returned cell
at the moment the overload returns, and the closure handed to the queue,
if the queue admitted it. -/
structure Submission (R : Type) where
  atReturn : AVState R
  queued : Option (WorkResult R)

/-- State of the cell after the pool has executed the queued closure, if any
(the closure runs `result.emplace(work())`); if nothing was queued the cell
keeps the state it had when the overload returned. -/
def Submission.afterRun {R : Type} (s : Submission R) : AVState R :=
  match s.queued with
  | some w => emplaceWork w
  | none => s.atReturn

/-- Underlying non-blocking enqueue `EnqueueWork` (async_dispatch.h:51-52):
it returns `void` — there is no acceptance verdict — and the work is appended
to the non-blocking queue unconditionally. -/
def EnqueueWorkVoid {W : Type} (queue : List W) (work : W) : List W :=
  queue ++ [work]

/-- Typed overload of `EnqueueWork` (async_dispatch.h:60-70): allocate an
unconstructed cell, hand the queue a closure that emplaces the work's result
into the cell, and return the cell.  The underlying enqueue returns `void`,
so there is no rejection branch. -/
def EnqueueWorkTyped {R : Type} (work : WorkResult R) : Submission R :=
  { atReturn := .unresolved, queued := some work }

/-- Typed overload of `EnqueueBlockingWork` (async_dispatch.h:90-104):
allocate an unconstructed cell and hand the queue the emplacing closure;
`accepted` is the verdict of the underlying bool-returning
`EnqueueBlockingWork` (h:80-81, false when the queue is full).  On rejection
the cell is resolved with the error "Failed to enqueue blocking work."
(h:100-102) before the overload returns. -/
def EnqueueBlockingWorkTyped {R : Type} (accepted : Bool) (work : WorkResult R) :
    Submission R :=
  if accepted then { atReturn := .unresolved, queued := some work }
  else { atReturn := .error "Failed to enqueue blocking work.", queued := none }

/-- Typed overload of `RunBlockingWork` (async_dispatch.h:123-137): same shape
as the blocking-queued overload; `accepted` is the verdict of the underlying
bool-returning `RunBlockingWork` (h:113-114, false when no thread can be
assigned).  On rejection the cell is resolved with the error
"Failed to run blocking work." (h:133-135) before the overload returns. -/
def RunBlockingWorkTyped {R : Type} (accepted : Bool) (work : WorkResult R) :
    Submission R :=
  if accepted then { atReturn := .unresolved, queued := some work }
  else { atReturn := .error "Failed to run blocking work.", queued := none }

namespace WithChainResult

/-- Specialization of `WithChainResult` for `void (*)(Args...)`
(kernels.h:40-46): invoke the sync function, then return a default-constructed
`Chain`.  A side-effecting sync function with its argument list already
applied is embedded as a state transformer `f : σ → σ` over an abstract
effect state `σ` (for instance an invocation log); one application of `f` is
one invocation of the C++ function. -/
def invokeVoid {σ : Type} (f : σ → σ) (s : σ) : σ × Chain :=
  (f s, Chain.mk)

/-- Specialization of `WithChainResult` for `Error (*)(Args...)`
(kernels.h:48-55).  An `llvm::Error` result is success or an error, embedded
as `Option String` with `some` the error (the truthiness test
`if (auto error = sync_func_ptr(...))`); on error the error is returned
unmodified, on success the result is `Expected<Chain>` holding a fresh
`Chain{}`. -/
def invokeError {σ : Type} (f : σ → σ × Option String) (s : σ) :
    σ × Except String Chain :=
  let r := f s
  match r.2 with
  | some e => (r.1, .error e)
  | none => (r.1, .ok Chain.mk)

/-- Specialization of `WithChainResult` for `Expected<Result> (*)(Args...)`
(kernels.h:57-65): on failure `result.takeError()` passes the error through
unmodified; on success the pair `(*result, Chain{})` is returned as
`Expected<std::tuple<Result, Chain>>`. -/
def invokeExpected {σ V : Type} (f : σ → σ × Except String V) (s : σ) :
    σ × Except String (V × Chain) :=
  let r := f s
  match r.2 with
  | .error e => (r.1, .error e)
  | .ok v => (r.1, .ok (v, Chain.mk))

/-- Specialization of `WithChainResult` for
`Expected<std::tuple<Results...>> (*)(Args...)` (kernels.h:66-76): the tuple
`std::tuple<Results...>` is embedded as a single product type `V`;
`std::tuple_cat(std::move(*tuple), std::make_tuple(Chain{}))` appends a fresh
`Chain` as last element.  On failure `tuple.takeError()` passes the error
through unmodified. -/
def invokeExpectedTuple {σ V : Type} (f : σ → σ × Except String V) (s : σ) :
    σ × Except String (V × Chain) :=
  let r := f s
  match r.2 with
  | .error e => (r.1, .error e)
  | .ok v => (r.1, .ok (v, Chain.mk))

end WithChainResult

/-- Syntactic description of the return type a wrapped sync function can
declare, one level deep: `void`, `llvm::Error`, a plain non-void value type,
`Expected<V>` with `V` not a tuple, or `Expected<std::tuple<...>>`. -/
inductive RetType where
  | void : RetType
  | err : RetType
  | plainValue : String → RetType
  | expectedValue : String → RetType
  | expectedTuple : List String → RetType
deriving DecidableEq, Repr

/-- Return shapes for which kernels.h defines a specialization of
`WithChainResult`.  The primary template (kernels.h:37-38) is declared but
never defined, so a shape is accepted exactly when one of the four
specializations matches it: `void (*)(Args...)` (h:40), `Error (*)(Args...)`
(h:48), `Expected<Result> (*)(Args...)` (h:57) and
`Expected<std::tuple<Results...>> (*)(Args...)` (h:67).  A function returning
a plain non-void value `V` matches none of them. -/
def hasSpecialization : RetType → Bool
  | .void => true
  | .err => true
  | .plainValue _ => false
  | .expectedValue _ => true
  | .expectedTuple _ => true

/-- Stated from the spec's words, for comparison with `hasSpecialization`
(spec section 4.5): the shapes the spec claims the adapter accepts are
"`Unit`, `ErrorOr<Unit>`, `V`, or `ErrorOr<V>`" — `void`, `Error`, a plain
value, and `Expected` of a value (a tuple payload being a value too). -/
def specClaimedShape : RetType → Bool
  | .void => true
  | .err => true
  | .plainValue _ => true
  | .expectedValue _ => true
  | .expectedTuple _ => true

/-- Semantic type of the embedded sync function declaring return shape `rt`,
over effect state `σ` and value payload `V`. -/
def RetType.syncSem (σ V : Type) : RetType → Type
  | .void => σ → σ
  | .err => σ → σ × Option String
  | .plainValue _ => σ → σ × V
  | .expectedValue _ => σ → σ × Except String V
  | .expectedTuple _ => σ → σ × Except String V

/-- Semantic type of `WithChainResult<...>::Invoke` for return shape `rt`.
For a plain value shape no specialization exists and no `Invoke` is declared,
recorded as the empty type. -/
def RetType.asyncSem (σ V : Type) : RetType → Type
  | .void => σ → σ × Chain
  | .err => σ → σ × Except String Chain
  | .plainValue _ => Empty
  | .expectedValue _ => σ → σ × Except String (V × Chain)
  | .expectedTuple _ => σ → σ × Except String (V × Chain)

/-- Type-level dispatch of the adapter: for every accepted return shape,
`Invoke` is selected by the shape alone (the C++ partial specialization
matched), never by a runtime test on the arguments. -/
def invokeFor {σ V : Type} :
    (rt : RetType) → hasSpecialization rt = true →
    RetType.syncSem σ V rt → RetType.asyncSem σ V rt
  | .void, _, f => WithChainResult.invokeVoid f
  | .err, _, f => WithChainResult.invokeError f
  | .expectedValue _, _, f => WithChainResult.invokeExpected f
  | .expectedTuple _, _, f => WithChainResult.invokeExpectedTuple f

/-- First instant `t` with `start ≤ t < start + fuel` at which the monitored
condition `p t` holds, scanning instants in order. -/
def firstTrue (p : Nat → Bool) : Nat → Nat → Option Nat
  | _, 0 => none
  | start, fuel + 1 => if p start then some start else firstTrue p (start + 1) fuel

/-- Modelled from the spec: `Await` is declared (async_dispatch.h:43-48) but
its definition is not part of this excerpt.  Per the spec it blocks the
calling thread until every listed future is resolved ("Block until the
specified values are available (either with a value or an error result)"),
must not be called from a thread managed by the work queue, and does not
itself inspect or consume the futures' results.  The resolution of the
awaited cells over time is an external timeline `timeline : Nat → List
(AVState α)`; `awaitRun` returns the first instant before `fuel` at which
every cell is resolved — the instant at which `Await` returns control to the
caller — and `none` while no such instant has occurred (the caller is still
blocked; a pool-thread caller may deadlock, so no return instant is
guaranteed there). -/
def awaitRun {α : Type} (fromPoolThread : Bool) (timeline : Nat → List (AVState α))
    (fuel : Nat) : Option Nat :=
  if fromPoolThread then none
  else firstTrue (fun t => (timeline t).all (fun c => isResolved c)) 0 fuel

/-- Outcome of `CudaEventSynchronizeAsync` observable at the call boundary:
the state of the allocated output chain when the kernel returns, and whether
a closure was admitted to the blocking queue. -/
structure EventSyncOutcome where
  atReturn : AVState Chain
  enqueued : Bool
deriving DecidableEq, Repr

/-- Kernel `tfrt_gpu.event.synchronize`, `CudaEventSynchronizeAsync`
(kernels.cc:118-134).  `query` is the driver's answer to
`wrapper::EventQuery` (cc:123), embedded as its error message or the
readiness bit; `accepted` is the verdict of the underlying bool-returning
`EnqueueBlockingWork`; `inChain` is the input chain.  The error branch
renders the query error with `StrCat`, embedded as the message itself. -/
def cudaEventSynchronizeAsync (query : Except String Bool) (accepted : Bool)
    (inChain : Chain) : EventSyncOutcome :=
  match query with
  | .error e => { atReturn := .error e, enqueued := false }
  | .ok true => { atReturn := .value inChain, enqueued := false }
  | .ok false =>
    if accepted then { atReturn := .unresolved, enqueued := true }
    else { atReturn := .error "Failed to enqueue blocking work.", enqueued := false }

/-- Effect on the output chain of the closure that
`CudaEventSynchronizeAsync` enqueues (kernels.cc:127-132) once a pool thread
runs it: on a `CudaEventSynchronizeSync` error the chain is resolved with
that error (rendered by `StrCat`, embedded as the message itself), otherwise
with the input chain's value. -/
def eventSyncWorkRun (syncError : Option String) (inChain : Chain) : AVState Chain :=
  match syncError with
  | some e => .error e
  | none => .value inChain

/-- Errors produced by the memcpy kernels: the two size errors built by
`CheckMemcpySizes` (kernels.cc:188-199) carry the offending sizes; errors of
the driver calls `CtxSetCurrent` and `MemcpyAsync` are passed through and
carried as their messages. -/
inductive MemcpyErr where
  | srcTooSmall : Nat → Int → MemcpyErr
  | dstTooSmall : Nat → Int → MemcpyErr
  | wrapperErr : String → MemcpyErr
deriving DecidableEq, Repr

/-- Size guard `CheckMemcpySizes` (kernels.cc:188-199).  `dst_size` and
`src_size` are `size_t` values, `copy_size` an `int64_t`; in the C++
comparisons `src_size < copy_size` and `dst_size < copy_size` the usual
arithmetic conversions convert `copy_size` to the unsigned 64-bit type, i.e.
the comparison is against `copy_size` taken modulo 2^64 = 18446744073709551616.
The source buffer is checked first. -/
def checkMemcpySizes (dstSize srcSize : Nat) (copySize : Int) : Option MemcpyErr :=
  let cs := (copySize % (18446744073709551616 : Int)).toNat
  if srcSize < cs then some (.srcTooSmall srcSize copySize)
  else if dstSize < cs then some (.dstTooSmall dstSize copySize)
  else none

/-- Observable outcome of one memcpy kernel call: the returned error, if any,
whether `wrapper::CtxSetCurrent` was reached, and whether
`wrapper::MemcpyAsync` was reached. -/
structure MemcpyOutcome where
  result : Option MemcpyErr
  ctxSetReached : Bool
  copyAttempted : Bool
deriving DecidableEq, Repr

/-- Kernel `tfrt_gpu.mem.copy_host_to_device`, `CudaMemcpyHtoD`
(kernels.cc:201-213): check sizes with
`CheckMemcpySizes(dst.size(), src->size(), bytes_count)` and return the size
error without touching the driver; then make the context current, returning
its error if that fails; then issue `MemcpyAsync`, whose result (embedded as
the parameter `memcpyRes`) is returned. -/
def cudaMemcpyHtoD (ctxSet : Except String Unit) (memcpyRes : Option String)
    (dstSize srcSize : Nat) (bytesCount : Int) : MemcpyOutcome :=
  match checkMemcpySizes dstSize srcSize bytesCount with
  | some e => { result := some e, ctxSetReached := false, copyAttempted := false }
  | none =>
    match ctxSet with
    | .error e =>
      { result := some (.wrapperErr e), ctxSetReached := true, copyAttempted := false }
    | .ok _ =>
      { result := memcpyRes.map .wrapperErr, ctxSetReached := true, copyAttempted := true }

/-- Kernel `tfrt_gpu.mem.copy_device_to_host`, `CudaMemcpyDtoH`
(kernels.cc:215-227): identical structure, with
`CheckMemcpySizes(dst->size(), src.size(), bytes_count)` — the destination is
the host buffer, the source the GPU buffer. -/
def cudaMemcpyDtoH (ctxSet : Except String Unit) (memcpyRes : Option String)
    (dstSize srcSize : Nat) (bytesCount : Int) : MemcpyOutcome :=
  match checkMemcpySizes dstSize srcSize bytesCount with
  | some e => { result := some e, ctxSetReached := false, copyAttempted := false }
  | none =>
    match ctxSet with
    | .error e =>
      { result := some (.wrapperErr e), ctxSetReached := true, copyAttempted := false }
    | .ok _ =>
      { result := memcpyRes.map .wrapperErr, ctxSetReached := true, copyAttempted := true }

/-- A dtype descriptor: all the tensor-make kernel reads from `GetDType<T>()`
is the host size of the element type (kernels.cc:168, 172). -/
structure DTypeM where
  hostSize : Nat
deriving DecidableEq, Repr

/-- A `GpuBuffer` as the tensor-make kernel observes it: validity (`*buffer`
is false for a moved-from buffer), device pointer and byte size. -/
structure GpuBufferM where
  valid : Bool
  pointer : Nat
  size : Nat
deriving DecidableEq, Repr

/-- Number of elements of a shape, `TensorShape::GetNumElements`: the product
of the dimensions. -/
def numElements (shape : List Nat) : Nat := shape.prod

/-- Errors of `CudaTensorMake` (kernels.cc:164-173), carrying the data that
the source interpolates into the two messages. -/
inductive TensorMakeErr where
  | invalidBuffer : TensorMakeErr
  | sizeMismatch : Nat → List Nat → Nat → TensorMakeErr
deriving DecidableEq, Repr

/-- A `DenseGpuTensor` as built by the tensor-make kernel: the given shape and
dtype over a `GpuCrtBuffer` created from the input buffer's pointer and size
(kernels.cc:178-180). -/
structure DenseGpuTensorM where
  shape : List Nat
  dtype : DTypeM
  bufferPointer : Nat
  bufferSize : Nat
deriving DecidableEq, Repr

/-- Kernel `tfrt_gpu.tensor.make.*`, `CudaTensorMake<T>` (kernels.cc:161-181).
The element type `T` enters only through `GetDType<T>()`, embedded as the
descriptor `dt`.  An invalid (moved-from) buffer is rejected; then the buffer
byte size must equal the shape's element count times the element's host size;
otherwise the tensor is built over the input buffer's pointer and size. -/
def cudaTensorMake (dt : DTypeM) (buffer : GpuBufferM) (shape : List Nat) :
    Except TensorMakeErr DenseGpuTensorM :=
  if !buffer.valid then .error .invalidBuffer
  else if buffer.size ≠ numElements shape * dt.hostSize then
    .error (.sizeMismatch buffer.size shape dt.hostSize)
  else
    .ok { shape := shape, dtype := dt,
          bufferPointer := buffer.pointer, bufferSize := buffer.size }

/-- Claim C1: for every synchronous function `f` of one of the adapter's
supported return shapes and every argument list (here: every embedded effect
function `f` applied to every effect state `s`), `WithChainResult<...>::Invoke`
invokes `f` exactly once, synchronously, without dispatching to the work queue
— the resulting effect state is exactly one application of `f` and nothing
else, and the result is available at return — and when `f` succeeds the
adapter's result consists of `f`'s results with one freshly
default-constructed `Chain` appended as the last element. -/
theorem invoke_success_appends_fresh_chain :
    ∀ (σ V : Type) (s : σ),
      (∀ f : σ → σ, WithChainResult.invokeVoid f s = (f s, Chain.mk)) ∧
      (∀ f : σ → σ × Option String, (f s).2 = none →
        WithChainResult.invokeError f s = ((f s).1, Except.ok Chain.mk)) ∧
      (∀ (f : σ → σ × Except String V) (v : V), (f s).2 = Except.ok v →
        WithChainResult.invokeExpected f s = ((f s).1, Except.ok (v, Chain.mk))) ∧
      (∀ (f : σ → σ × Except String V) (v : V), (f s).2 = Except.ok v →
        WithChainResult.invokeExpectedTuple f s
          = ((f s).1, Except.ok (v, Chain.mk))) ∧
      (∀ f : σ → σ × Option String,
        (WithChainResult.invokeError f s).1 = (f s).1) ∧
      (∀ f : σ → σ × Except String V,
        (WithChainResult.invokeExpected f s).1 = (f s).1) ∧
      (∀ f : σ → σ × Except String V,
        (WithChainResult.invokeExpectedTuple f s).1 = (f s).1) := by
  intro σ V s
  refine ⟨fun f => rfl, ?_, ?_, ?_, ?_, ?_, ?_⟩
  · intro f h
    simp only [WithChainResult.invokeError]
    rw [h]
  · intro f v h
    simp only [WithChainResult.invokeExpected]
    rw [h]
  · intro f v h
    simp only [WithChainResult.invokeExpectedTuple]
    rw [h]
  · intro f
    simp only [WithChainResult.invokeError]
    cases (f s).2 <;> rfl
  · intro f
    simp only [WithChainResult.invokeExpected]
    cases (f s).2 <;> rfl
  · intro f
    simp only [WithChainResult.invokeExpectedTuple]
    cases (f s).2 <;> rfl

/-- Witness for C1: an instrumented sync function over a call counter, run
through the `Error`-shaped specialization; the counter ends at 1 (exactly one
invocation) and the result is a fresh `Chain` token. -/
theorem invoke_success_appends_fresh_chain_witness :
    WithChainResult.invokeError (fun n : Nat => (n + 1, none)) 0
      = (1, Except.ok Chain.mk) :=
  (invoke_success_appends_fresh_chain Nat Nat 0).2.1 (fun n => (n + 1, none)) rfl

/-- Claim C4: for every synchronous function of a fallible return shape
(`Error`, `Expected<V>`, or `Expected<tuple<...>>`) and every argument list on
which it fails, `WithChainResult<...>::Invoke` returns exactly the error the
function returned, unmodified, and produces no `Chain` token in that case. -/
theorem invoke_failure_returns_error_unmodified :
    ∀ (σ V : Type) (s : σ) (e : String),
      (∀ f : σ → σ × Option String, (f s).2 = some e →
        WithChainResult.invokeError f s = ((f s).1, Except.error e)) ∧
      (∀ f : σ → σ × Except String V, (f s).2 = Except.error e →
        WithChainResult.invokeExpected f s = ((f s).1, Except.error e)) ∧
      (∀ f : σ → σ × Except String V, (f s).2 = Except.error e →
        WithChainResult.invokeExpectedTuple f s = ((f s).1, Except.error e)) ∧
      (∀ f : σ → σ × Option String, (f s).2 = some e →
        ∀ c : Chain, (WithChainResult.invokeError f s).2 ≠ Except.ok c) ∧
      (∀ f : σ → σ × Except String V, (f s).2 = Except.error e →
        ∀ p : V × Chain, (WithChainResult.invokeExpected f s).2 ≠ Except.ok p) ∧
      (∀ f : σ → σ × Except String V, (f s).2 = Except.error e →
        ∀ p : V × Chain,
          (WithChainResult.invokeExpectedTuple f s).2 ≠ Except.ok p) := by
  intro σ V s e
  refine ⟨?_, ?_, ?_, ?_, ?_, ?_⟩
  · intro f h
    simp only [WithChainResult.invokeError]
    rw [h]
  · intro f h
    simp only [WithChainResult.invokeExpected]
    rw [h]
  · intro f h
    simp only [WithChainResult.invokeExpectedTuple]
    rw [h]
  · intro f h c
    simp only [WithChainResult.invokeError]
    rw [h]
    exact fun hc => Except.noConfusion hc
  · intro f h p
    simp only [WithChainResult.invokeExpected]
    rw [h]
    exact fun hc => Except.noConfusion hc
  · intro f h p
    simp only [WithChainResult.invokeExpectedTuple]
    rw [h]
    exact fun hc => Except.noConfusion hc

/-- Witness for C4: a failing `Expected`-shaped sync function; the adapter
passes the error message through unmodified and the counter shows one
invocation. -/
theorem invoke_failure_returns_error_unmodified_witness :
    WithChainResult.invokeExpected
        (fun n : Nat => (n + 1, (Except.error "boom" : Except String Nat))) 0
      = (1, Except.error "boom") :=
  (invoke_failure_returns_error_unmodified Nat Nat 0 "boom").2.1
    (fun n => (n + 1, Except.error "boom")) rfl

/-- Claim C2: for every value-returning submission through the typed
`EnqueueBlockingWork` or `RunBlockingWork` overload, if the underlying
bool-returning enqueue/dispatch returns false, then the `AsyncValueRef`
already allocated for that submission is resolved with an explicit
submission-failure error before the call returns, and is never left
unresolved. -/
theorem blocking_rejection_resolves_future (R : Type) (work : WorkResult R)
    (accepted : Bool) (h : accepted = false) :
    (EnqueueBlockingWorkTyped accepted work).atReturn
        = AVState.error "Failed to enqueue blocking work." ∧
    (RunBlockingWorkTyped accepted work).atReturn
        = AVState.error "Failed to run blocking work." ∧
    isResolved (EnqueueBlockingWorkTyped accepted work).atReturn = true ∧
    isResolved (RunBlockingWorkTyped accepted work).atReturn = true := by
  subst h
  exact ⟨rfl, rfl, rfl, rfl⟩

/-- Witness for C2: a rejected blocking submission of a `Nat`-returning
closure comes back already resolved with the submission-failure error. -/
theorem blocking_rejection_resolves_future_witness :
    (EnqueueBlockingWorkTyped false (WorkResult.plain (5 : Nat))).atReturn
        = AVState.error "Failed to enqueue blocking work." ∧
    isResolved (RunBlockingWorkTyped false (WorkResult.plain (5 : Nat))).atReturn
        = true :=
  ⟨(blocking_rejection_resolves_future Nat (WorkResult.plain 5) false rfl).1,
   (blocking_rejection_resolves_future Nat (WorkResult.plain 5) false rfl).2.2.2⟩

/-- Claim C3 (counterexample): the claim states that every submission through
a typed overload returns an unresolved `AsyncValueRef` immediately; but a
blocking submission whose underlying enqueue rejects the work returns a cell
already resolved with an error. -/
theorem typed_overload_unresolved_cex :
    (EnqueueBlockingWorkTyped false (WorkResult.plain (0 : Nat))).atReturn
      ≠ AVState.unresolved := by
  intro h
  simp [EnqueueBlockingWorkTyped] at h

/-- Claim C3 (amended): for every closure submitted through a typed overload
of `EnqueueWork`, `EnqueueBlockingWork`, or `RunBlockingWork`, provided the
underlying enqueue/dispatch accepts the work (`EnqueueWork`'s underlying
enqueue cannot reject), the call returns an unresolved `AsyncValueRef<R>`
immediately (`R` the closure's return type with any `Expected` wrapper
stripped), and once the closure executes the future is resolved with the
closure's return value; for an `Expected<R>` return the future is resolved
with the contained error on failure and the contained value on success, never
both. -/
theorem typed_overloads_resolve_with_work_result (R : Type) (work : WorkResult R)
    (accepted : Bool) (h : accepted = true) :
    (EnqueueWorkTyped work).atReturn = AVState.unresolved ∧
    (EnqueueWorkTyped work).afterRun = emplaceWork work ∧
    (EnqueueBlockingWorkTyped accepted work).atReturn = AVState.unresolved ∧
    (EnqueueBlockingWorkTyped accepted work).afterRun = emplaceWork work ∧
    (RunBlockingWorkTyped accepted work).atReturn = AVState.unresolved ∧
    (RunBlockingWorkTyped accepted work).afterRun = emplaceWork work ∧
    (∀ r : R, emplaceWork (WorkResult.plain r) = AVState.value r) ∧
    (∀ r : R, emplaceWork (WorkResult.fallible (Except.ok r)) = AVState.value r) ∧
    (∀ e : String,
      emplaceWork (WorkResult.fallible (Except.error e : Except String R))
        = AVState.error e) := by
  subst h
  exact ⟨rfl, rfl, rfl, rfl, rfl, rfl, fun r => rfl, fun r => rfl, fun e => rfl⟩

/-- Witness for C3 (amended): an accepted blocking submission of a failing
`Expected`-shaped closure returns unresolved and is later resolved with the
contained error. -/
theorem typed_overloads_resolve_with_work_result_witness :
    (EnqueueBlockingWorkTyped true
        (WorkResult.fallible (Except.error "boom" : Except String Nat))).atReturn
      = AVState.unresolved ∧
    (EnqueueBlockingWorkTyped true
        (WorkResult.fallible (Except.error "boom" : Except String Nat))).afterRun
      = AVState.error "boom" :=
  ⟨(typed_overloads_resolve_with_work_result Nat
      (WorkResult.fallible (Except.error "boom")) true rfl).2.2.1,
   (typed_overloads_resolve_with_work_result Nat
      (WorkResult.fallible (Except.error "boom")) true rfl).2.2.2.1⟩

/-- Claim C6: the non-blocking enqueue `EnqueueWork` is always accepted — the
underlying enqueue returns `void` and simply appends the work to the queue,
exposing no rejection indicator — and the future returned by the typed
overload is never resolved with a submission-failure error: at return it is
unresolved, and it can only be resolved by the submitted work itself. -/
theorem enqueueWork_always_accepted (R : Type) (work : WorkResult R)
    (W : Type) (queue : List W) (item : W) :
    EnqueueWorkVoid queue item = queue ++ [item] ∧
    (EnqueueWorkTyped work).atReturn = AVState.unresolved ∧
    (EnqueueWorkTyped work).queued = some work ∧
    (EnqueueWorkTyped work).afterRun = emplaceWork work ∧
    (∀ e : String, (EnqueueWorkTyped work).atReturn ≠ AVState.error e) := by
  exact ⟨rfl, rfl, rfl, rfl, fun e he => AVState.noConfusion he⟩

/-- Witness for C6: a concrete non-blocking submission is queued, unresolved
at return, and resolved by its own work only. -/
theorem enqueueWork_always_accepted_witness :
    EnqueueWorkVoid [()] () = [(), ()] ∧
    (EnqueueWorkTyped (WorkResult.plain (7 : Nat))).atReturn
      = AVState.unresolved ∧
    (EnqueueWorkTyped (WorkResult.plain (7 : Nat))).afterRun = AVState.value 7 :=
  ⟨(enqueueWork_always_accepted Nat (WorkResult.plain 7) Unit [()] ()).1,
   (enqueueWork_always_accepted Nat (WorkResult.plain 7) Unit [()] ()).2.1,
   (enqueueWork_always_accepted Nat (WorkResult.plain 7) Unit [()] ()).2.2.2.1⟩

/-- Claim C5 (counterexample): the claim lists a plain non-void value type `V`
among the adapter's accepted return shapes, but the code defines no
specialization of `WithChainResult` for `V (*)(Args...)` — the primary
template is declared and never defined — so a sync function returning a plain
value (for instance `int`) is not convertible by the adapter. -/
theorem adapter_shape_cex :
    specClaimedShape (RetType.plainValue "int") = true ∧
    hasSpecialization (RetType.plainValue "int") = false :=
  ⟨rfl, rfl⟩

/-- Claim C5 (amended): the sync-to-async adapter accepts exactly the four
return shapes for which a specialization is declared — `void`, `Error`,
`Expected<V>`, and `Expected<std::tuple<...>>` (a plain non-void value type
is not among them) — selecting among them at the type level, by
specialization of the wrapped function's declared return type and not by
runtime branching; every function whose return type is one of these four
shapes is convertible by the adapter. -/
theorem adapter_accepts_exactly_declared_shapes :
    (∀ rt : RetType, hasSpecialization rt = true ↔
      (rt = RetType.void ∨ rt = RetType.err ∨
        (∃ n, rt = RetType.expectedValue n) ∨
        (∃ ns, rt = RetType.expectedTuple ns))) ∧
    (∀ (σ V : Type) (f : σ → σ),
      invokeFor (V := V) RetType.void rfl f = WithChainResult.invokeVoid f) ∧
    (∀ (σ V : Type) (f : σ → σ × Option String),
      invokeFor (V := V) RetType.err rfl f = WithChainResult.invokeError f) ∧
    (∀ (n : String) (σ V : Type) (f : σ → σ × Except String V),
      invokeFor (RetType.expectedValue n) rfl f
        = WithChainResult.invokeExpected f) ∧
    (∀ (ns : List String) (σ V : Type) (f : σ → σ × Except String V),
      invokeFor (RetType.expectedTuple ns) rfl f
        = WithChainResult.invokeExpectedTuple f) := by
  refine ⟨?_, fun σ V f => rfl, fun σ V f => rfl,
    fun n σ V f => rfl, fun ns σ V f => rfl⟩
  intro rt
  cases rt <;> simp [hasSpecialization]

/-- Witness for C5 (amended): the `Error` shape is accepted, the plain-value
shape is not, and the type-level selection at the `Expected` shape is the
`Expected` specialization. -/
theorem adapter_accepts_exactly_declared_shapes_witness :
    hasSpecialization RetType.err = true ∧
    invokeFor (RetType.expectedValue "int") rfl
        (fun n : Nat => (n + 1, (Except.ok 4 : Except String Nat)))
      = WithChainResult.invokeExpected
          (fun n : Nat => (n + 1, (Except.ok 4 : Except String Nat))) :=
  ⟨(adapter_accepts_exactly_declared_shapes.1 RetType.err).mpr
      (Or.inr (Or.inl rfl)),
   adapter_accepts_exactly_declared_shapes.2.2.2.1 "int" Nat Nat
      (fun n => (n + 1, Except.ok 4))⟩

/-- Scanning helper: a hit of `firstTrue` satisfies the condition, lies in the
scanned window, and is the first instant of the window satisfying it. -/
theorem firstTrue_spec (p : Nat → Bool) :
    ∀ (fuel start t : Nat), firstTrue p start fuel = some t →
      p t = true ∧ start ≤ t ∧ ∀ u, start ≤ u → u < t → p u = false := by
  intro fuel
  induction fuel with
  | zero =>
    intro start t h
    exact absurd h (by simp [firstTrue])
  | succ m ih =>
    intro start t h
    by_cases hp : p start = true
    · simp only [firstTrue, hp, if_pos, Option.some.injEq] at h
      subst h
      exact ⟨hp, Nat.le_refl _, fun u hu1 hu2 => absurd hu2 (Nat.not_lt.mpr hu1)⟩
    · simp only [firstTrue, hp, if_neg] at h
      obtain ⟨h1, h2, h3⟩ := ih (start + 1) t h
      refine ⟨h1, by omega, fun u hu1 hu2 => ?_⟩
      by_cases hus : u = start
      · subst hus
        cases hpu : p u
        · rfl
        · exact absurd hpu hp
      · exact h3 u (by omega) hu2

/-- Resolvedness of a list of cells depends only on the per-cell resolvedness
bits. -/
theorem all_isResolved_eq_of_map_eq {α : Type} :
    ∀ (l1 l2 : List (AVState α)),
      l1.map isResolved = l2.map isResolved →
      l1.all isResolved = l2.all isResolved := by
  intro l1
  induction l1 with
  | nil =>
    intro l2 h
    cases l2 with
    | nil => rfl
    | cons b t => exact absurd h (by simp)
  | cons a t1 ih =>
    intro l2 h
    cases l2 with
    | nil => exact absurd h (by simp)
    | cons b t2 =>
      simp only [List.map_cons, List.cons.injEq] at h
      simp only [List.all_cons, h.1, ih t2 h.2]

/-- Claim C7: for every non-empty list of futures passed to the wait bridge
`Await`, under the precondition that the calling thread is not a thread owned
by the dispatcher's pool, the call blocks the calling thread and returns only
once every listed future has been resolved (with a value or an error): if the
call returns at instant `t`, all cells are resolved at `t` and the caller was
still blocked at every earlier instant.  `Await` does not inspect or consume
the values or errors of the futures: its return instant depends only on the
per-cell resolvedness bits of the timeline. -/
theorem await_blocks_until_all_resolved (α : Type) (n : Nat) (_hn : 0 < n)
    (timeline : Nat → List (AVState α)) (_hlen : ∀ u, (timeline u).length = n)
    (fuel t : Nat) :
    (awaitRun false timeline fuel = some t →
      (timeline t).all isResolved = true ∧
      ∀ u, u < t → (timeline u).all isResolved = false) ∧
    (∀ tl2 : Nat → List (AVState α),
      (∀ u, (timeline u).map isResolved = (tl2 u).map isResolved) →
      awaitRun false timeline fuel = awaitRun false tl2 fuel) := by
  constructor
  · intro h
    have h' : firstTrue (fun u => (timeline u).all (fun c => isResolved c)) 0 fuel
        = some t := by
      simpa [awaitRun] using h
    obtain ⟨h1, _, h3⟩ := firstTrue_spec _ fuel 0 t h'
    refine ⟨by simpa using h1, fun u hu => by simpa using h3 u (Nat.zero_le u) hu⟩
  · intro tl2 hmap
    have hp : (fun u => (timeline u).all (fun c => isResolved c))
        = (fun u => (tl2 u).all (fun c => isResolved c)) := by
      funext u
      simpa using all_isResolved_eq_of_map_eq (timeline u) (tl2 u) (hmap u)
    simp only [awaitRun, Bool.false_eq_true, if_false, hp]

/-- Witness for C7: one future that resolves at instant 2; the wait bridge
returns at instant 2, after the resolution, having blocked at instants 0
and 1. -/
theorem await_blocks_until_all_resolved_witness :
    ((fun u => [if u < 2 then (AVState.unresolved : AVState Nat)
        else AVState.value 5]) 2).all isResolved = true ∧
    ∀ u, u < 2 →
      ((fun u => [if u < 2 then (AVState.unresolved : AVState Nat)
          else AVState.value 5]) u).all isResolved = false :=
  (await_blocks_until_all_resolved Nat 1 (by decide)
      (fun u => [if u < 2 then (AVState.unresolved : AVState Nat)
        else AVState.value 5])
      (fun u => rfl) 10 2).1 (by decide)

/-- Claim C8: for every call to the `tfrt_gpu.event.synchronize` kernel
(`CudaEventSynchronizeAsync`): if the event query fails, the output chain is
resolved with that error and no work is enqueued; if the event has already
completed, the output chain is resolved inline with the input chain's value
without enqueuing any work; only if the event is still pending is blocking
work enqueued (here: provided the blocking queue admits it), and that work
resolves the output chain with the input chain's value on successful
synchronization and with an error otherwise. -/
theorem event_synchronize_inline_or_enqueue (accepted : Bool) (inChain : Chain)
    (q : Except String Bool) :
    (∀ e, cudaEventSynchronizeAsync (Except.error e) accepted inChain
        = { atReturn := AVState.error e, enqueued := false }) ∧
    (cudaEventSynchronizeAsync (Except.ok true) accepted inChain
        = { atReturn := AVState.value inChain, enqueued := false }) ∧
    (accepted = true →
      cudaEventSynchronizeAsync (Except.ok false) accepted inChain
        = { atReturn := AVState.unresolved, enqueued := true }) ∧
    (eventSyncWorkRun none inChain = AVState.value inChain) ∧
    (∀ e, eventSyncWorkRun (some e) inChain = AVState.error e) ∧
    ((cudaEventSynchronizeAsync q accepted inChain).enqueued = true →
      q = Except.ok false) := by
  refine ⟨fun e => rfl, rfl, ?_, rfl, fun e => rfl, ?_⟩
  · intro h
    subst h
    rfl
  · intro h
    match q with
    | .error e => exact absurd h (by simp [cudaEventSynchronizeAsync])
    | .ok true => exact absurd h (by simp [cudaEventSynchronizeAsync])
    | .ok false => rfl

/-- Witness for C8: with a pending event and an accepting queue, nothing is
resolved at return and the enqueued work later resolves the chain with the
input chain; a failing query resolves the chain with the query error
inline. -/
theorem event_synchronize_inline_or_enqueue_witness :
    cudaEventSynchronizeAsync (Except.ok false) true Chain.mk
        = { atReturn := AVState.unresolved, enqueued := true } ∧
    eventSyncWorkRun none Chain.mk = AVState.value Chain.mk ∧
    cudaEventSynchronizeAsync (Except.error "query failed") true Chain.mk
        = { atReturn := AVState.error "query failed", enqueued := false } :=
  ⟨(event_synchronize_inline_or_enqueue true Chain.mk (Except.ok false)).2.2.1 rfl,
   (event_synchronize_inline_or_enqueue true Chain.mk (Except.ok false)).2.2.2.1,
   (event_synchronize_inline_or_enqueue true Chain.mk
      (Except.error "query failed")).1 "query failed"⟩

/-- Claim C9: for every call to `CudaMemcpyHtoD` or `CudaMemcpyDtoH` (with the
byte count in the range of its C++ type `int64_t`), if the source buffer's
size is less than the requested byte count, or the destination buffer's size
is less than the requested byte count, the function returns a descriptive
error and no memory copy is initiated — the size check precedes any context
switch or copy call — and the copy is attempted only when both buffers are at
least as large as the byte count. -/
theorem memcpy_size_guard (ctxSet : Except String Unit) (memcpyRes : Option String)
    (dstSize srcSize : Nat) (bytesCount : Int)
    (hlo : -(2 ^ 63) ≤ bytesCount) (hhi : bytesCount < 2 ^ 63) :
    (((srcSize : Int) < bytesCount ∨ (dstSize : Int) < bytesCount) →
      ((cudaMemcpyHtoD ctxSet memcpyRes dstSize srcSize bytesCount).result
          = some (MemcpyErr.srcTooSmall srcSize bytesCount) ∨
        (cudaMemcpyHtoD ctxSet memcpyRes dstSize srcSize bytesCount).result
          = some (MemcpyErr.dstTooSmall dstSize bytesCount)) ∧
      (cudaMemcpyHtoD ctxSet memcpyRes dstSize srcSize bytesCount).ctxSetReached
          = false ∧
      (cudaMemcpyHtoD ctxSet memcpyRes dstSize srcSize bytesCount).copyAttempted
          = false) ∧
    ((cudaMemcpyHtoD ctxSet memcpyRes dstSize srcSize bytesCount).copyAttempted
        = true →
      ¬(srcSize : Int) < bytesCount ∧ ¬(dstSize : Int) < bytesCount) ∧
    (((srcSize : Int) < bytesCount ∨ (dstSize : Int) < bytesCount) →
      ((cudaMemcpyDtoH ctxSet memcpyRes dstSize srcSize bytesCount).result
          = some (MemcpyErr.srcTooSmall srcSize bytesCount) ∨
        (cudaMemcpyDtoH ctxSet memcpyRes dstSize srcSize bytesCount).result
          = some (MemcpyErr.dstTooSmall dstSize bytesCount)) ∧
      (cudaMemcpyDtoH ctxSet memcpyRes dstSize srcSize bytesCount).ctxSetReached
          = false ∧
      (cudaMemcpyDtoH ctxSet memcpyRes dstSize srcSize bytesCount).copyAttempted
          = false) ∧
    ((cudaMemcpyDtoH ctxSet memcpyRes dstSize srcSize bytesCount).copyAttempted
        = true →
      ¬(srcSize : Int) < bytesCount ∧ ¬(dstSize : Int) < bytesCount) := by
  have key1 : ((srcSize : Int) < bytesCount ∨ (dstSize : Int) < bytesCount) →
      checkMemcpySizes dstSize srcSize bytesCount
          = some (MemcpyErr.srcTooSmall srcSize bytesCount) ∨
      checkMemcpySizes dstSize srcSize bytesCount
          = some (MemcpyErr.dstTooSmall dstSize bytesCount) := by
    intro h
    by_cases h1 : srcSize < (bytesCount % (18446744073709551616 : Int)).toNat
    · left
      simp only [checkMemcpySizes]
      rw [if_pos h1]
    · have h2 : dstSize < (bytesCount % (18446744073709551616 : Int)).toNat := by
        omega
      right
      simp only [checkMemcpySizes]
      rw [if_neg h1, if_pos h2]
  have key2 : checkMemcpySizes dstSize srcSize bytesCount = none →
      ¬(srcSize : Int) < bytesCount ∧ ¬(dstSize : Int) < bytesCount := by
    intro hnone
    simp only [checkMemcpySizes] at hnone
    by_cases h1 : srcSize < (bytesCount % (18446744073709551616 : Int)).toNat
    · rw [if_pos h1] at hnone
      exact Option.noConfusion hnone
    · by_cases h2 : dstSize < (bytesCount % (18446744073709551616 : Int)).toNat
      · rw [if_neg h1, if_pos h2] at hnone
        exact Option.noConfusion hnone
      · constructor <;> omega
  refine ⟨?_, ?_, ?_, ?_⟩
  · intro h
    rcases key1 h with hk | hk
    · exact ⟨Or.inl (by simp [cudaMemcpyHtoD, hk]), by simp [cudaMemcpyHtoD, hk],
        by simp [cudaMemcpyHtoD, hk]⟩
    · exact ⟨Or.inr (by simp [cudaMemcpyHtoD, hk]), by simp [cudaMemcpyHtoD, hk],
        by simp [cudaMemcpyHtoD, hk]⟩
  · intro hcopy
    cases hchk : checkMemcpySizes dstSize srcSize bytesCount with
    | some e =>
      rw [show cudaMemcpyHtoD ctxSet memcpyRes dstSize srcSize bytesCount
          = { result := some e, ctxSetReached := false, copyAttempted := false }
        from by simp [cudaMemcpyHtoD, hchk]] at hcopy
      exact absurd hcopy (by simp)
    | none => exact key2 hchk
  · intro h
    rcases key1 h with hk | hk
    · exact ⟨Or.inl (by simp [cudaMemcpyDtoH, hk]), by simp [cudaMemcpyDtoH, hk],
        by simp [cudaMemcpyDtoH, hk]⟩
    · exact ⟨Or.inr (by simp [cudaMemcpyDtoH, hk]), by simp [cudaMemcpyDtoH, hk],
        by simp [cudaMemcpyDtoH, hk]⟩
  · intro hcopy
    cases hchk : checkMemcpySizes dstSize srcSize bytesCount with
    | some e =>
      rw [show cudaMemcpyDtoH ctxSet memcpyRes dstSize srcSize bytesCount
          = { result := some e, ctxSetReached := false, copyAttempted := false }
        from by simp [cudaMemcpyDtoH, hchk]] at hcopy
      exact absurd hcopy (by simp)
    | none => exact key2 hchk

/-- Witness for C9: copying 2 bytes out of a 1-byte source into a 4-byte
destination returns the source-too-small error without reaching the context
switch or the copy; and a device-to-host copy that did attempt the copy had
both buffers at least as large as the byte count. -/
theorem memcpy_size_guard_witness :
    ((cudaMemcpyHtoD (Except.ok ()) none 4 1 2).result
        = some (MemcpyErr.srcTooSmall 1 2) ∨
      (cudaMemcpyHtoD (Except.ok ()) none 4 1 2).result
        = some (MemcpyErr.dstTooSmall 4 2)) ∧
    (cudaMemcpyHtoD (Except.ok ()) none 4 1 2).ctxSetReached = false ∧
    (cudaMemcpyHtoD (Except.ok ()) none 4 1 2).copyAttempted = false :=
  (memcpy_size_guard (Except.ok ()) none 4 1 2 (by decide) (by decide)).1
    (Or.inl (by decide))

/-- Claim C10: for every element type (entering through its dtype descriptor),
`CudaTensorMake` returns an error exactly when the input buffer is invalid
(moved-from) or the buffer's byte size differs from the shape's element count
times the element type's host size; otherwise it returns a `DenseGpuTensor`
whose shape and dtype equal the given shape and the element's dtype and whose
underlying buffer has the input buffer's pointer and size. -/
theorem tensor_make_checks_buffer_and_size (dt : DTypeM) (buffer : GpuBufferM)
    (shape : List Nat) :
    ((∃ e, cudaTensorMake dt buffer shape = Except.error e) ↔
      (buffer.valid = false ∨ buffer.size ≠ numElements shape * dt.hostSize)) ∧
    (buffer.valid = true → buffer.size = numElements shape * dt.hostSize →
      cudaTensorMake dt buffer shape = Except.ok
        { shape := shape, dtype := dt,
          bufferPointer := buffer.pointer, bufferSize := buffer.size }) := by
  constructor
  · constructor
    · intro ⟨e, he⟩
      by_cases hv : buffer.valid
      · by_cases hs : buffer.size = numElements shape * dt.hostSize
        · rw [show cudaTensorMake dt buffer shape = Except.ok
              { shape := shape, dtype := dt,
                bufferPointer := buffer.pointer, bufferSize := buffer.size }
            from by simp [cudaTensorMake, hv, hs]] at he
          exact Except.noConfusion he
        · exact Or.inr hs
      · exact Or.inl (by simpa using hv)
    · intro h
      by_cases hv : buffer.valid
      · refine ⟨TensorMakeErr.sizeMismatch buffer.size shape dt.hostSize, ?_⟩
        have hs : buffer.size ≠ numElements shape * dt.hostSize := by
          rcases h with h | h
          · rw [hv] at h
            exact absurd h (by simp)
          · exact h
        simp [cudaTensorMake, hv, hs]
      · exact ⟨TensorMakeErr.invalidBuffer, by simp [cudaTensorMake, hv]⟩
  · intro hv hs
    simp [cudaTensorMake, hv, hs]

/-- Witness for C10: a valid 8-byte buffer, a 2-element shape and a 4-byte
dtype build the tensor over the buffer's pointer and size; an invalid buffer
is rejected. -/
theorem tensor_make_checks_buffer_and_size_witness :
    cudaTensorMake { hostSize := 4 } { valid := true, pointer := 100, size := 8 }
        [2]
      = Except.ok { shape := [2], dtype := { hostSize := 4 },
                    bufferPointer := 100, bufferSize := 8 } ∧
    ∃ e, cudaTensorMake { hostSize := 4 }
        { valid := false, pointer := 100, size := 8 } [2] = Except.error e :=
  ⟨(tensor_make_checks_buffer_and_size { hostSize := 4 }
      { valid := true, pointer := 100, size := 8 } [2]).2 rfl (by decide),
   (tensor_make_checks_buffer_and_size { hostSize := 4 }
      { valid := false, pointer := 100, size := 8 } [2]).1.mpr
      (Or.inl rfl)⟩

end Tfrt
